import Mathlib

/-!
Verification of the tool-augmented agent scaffolding library
(modules `lib/tooling.py`, `lib/llm.py`, `lib/messages.py`).

The Python code is shallowly embedded: the open-ended grammar of type
annotations becomes the inductive `PyType`; the JSON-schema-shaped
mappings returned by `Tool._infer_json_schema_type` become the inductive
`Schema`; pydantic message models become the inductive `Message` together
with explicit keyword-argument validation functions; the `LLM` client
state (minus the network handle, which is out of scope) becomes
`LLMState`.  Fallible Python code (raising `ValueError` /
`ValidationError`) is embedded as `Except String`.
-/

/-- The grammar of Python type annotations that `Tool._infer_json_schema_type`
distinguishes: `Literal[...]`, `Union`/`Optional`, parameterized `list`
(`List` bare or `List[T]`), parameterized `dict`, the six primitive keys of
its mapping (`str`, `int`, `float`, `bool`, `date`, `datetime`), `NoneType`,
and any other object used as an annotation (`unknown`, carrying the object's
display name). -/
inductive PyType where
  | str : PyType
  | int : PyType
  | float : PyType
  | bool : PyType
  | date : PyType
  | datetime : PyType
  | noneType : PyType
  | literal (vals : List String) : PyType
  | union (args : List PyType) : PyType
  | list (arg : Option PyType) : PyType
  | dict (kv : Option (PyType × PyType)) : PyType
  | unknown (name : String) : PyType

/-- The Python identity test `arg is not type(None)` used in the `Union`
branch of `_infer_json_schema_type` (negated here). -/
def PyType.isNoneType : PyType → Bool
  | .noneType => true
  | _ => false

/-- The JSON-schema-shaped dictionaries `_infer_json_schema_type` returns:
`{"type": t}`, `{"type": t, "enum": vals}`, `{"type": "array", "items": s}`,
`{"type": "object", "additionalProperties": s}`. -/
inductive Schema where
  | prim (type : String) : Schema
  | enum (type : String) (vals : List String) : Schema
  | array (items : Schema) : Schema
  | object (additionalProperties : Schema) : Schema

/-- The `"type"` entry of the mapping `_infer_json_schema_type` returned. -/
def Schema.typeName : Schema → String
  | .prim t => t
  | .enum t _ => t
  | .array _ => "array"
  | .object _ => "object"

/-- A result of `_infer_json_schema_type` is a genuine JSON-schema mapping:
its `"type"` entry is one of the JSON type names, recursively. -/
def Schema.wellFormed : Schema → Bool
  | .prim t => t ∈ ["string", "integer", "number", "boolean"]
  | .enum t _ => t == "string"
  | .array s => s.wellFormed
  | .object s => s.wellFormed

/-- The literal dictionary `mapping = {str: "string", int: "integer",
float: "number", bool: "boolean", date: "string", datetime: "string"}` in
`_infer_json_schema_type`, applied as `mapping.get(typ, "string")`. -/
def primMapping : PyType → String
  | .str => "string"
  | .int => "integer"
  | .float => "number"
  | .bool => "boolean"
  | .date => "string"
  | .datetime => "string"
  | _ => "string"

/-- `Tool._infer_json_schema_type` (tooling.py:52-93): Literal becomes a
string enum; a Union keeps only the alternatives that are not `NoneType`
and recurses when exactly one remains, else falls back to string; `list`
origin recurses on the element type (string when unparameterized); `dict`
origin recurses on the value type (string when unparameterized); everything
else goes through the primitive mapping with fallback `"string"`. -/
def infer_json_schema_type : PyType → Schema
  | .literal vs => .enum "string" vs
  | .union args =>
    match h : args.filter (fun a => !a.isNoneType) with
    | [t] => infer_json_schema_type t
    | _ => .prim "string"
  | .list none => .array (infer_json_schema_type .str)
  | .list (some t) => .array (infer_json_schema_type t)
  | .dict none => .object (infer_json_schema_type .str)
  | .dict (some (_k, v)) => .object (infer_json_schema_type v)
  | t => .prim (primMapping t)
termination_by t => sizeOf t
decreasing_by
  all_goals simp_wf
  · have ht : t ∈ List.filter (fun a => !a.isNoneType) args := by
      rw [h]; exact List.mem_singleton_self t
    have := List.sizeOf_lt_of_mem (List.mem_of_mem_filter ht)
    omega
  · omega
  · omega

/-- One parameter of a wrapped callable, as seen through
`inspect.signature` and `get_type_hints`: its name, its annotation (`none`
when unannotated, in which case `type_hints.get(name, str)` yields `str`),
and whether its `inspect.Parameter` carries a default value
(`param.default == inspect.Parameter.empty` is the negation). -/
structure Param where
  name : String
  annot : Option PyType
  hasDefault : Bool

/-- A Python callable, as far as `Tool.__init__` introspects it:
`func.__name__`, `inspect.getdoc(func)` (`none` when there is no
docstring), and its parameters in declaration order. -/
structure PyCallable where
  name : String
  doc : Option String
  params : List Param

/-- The per-parameter record `Tool._build_param_schema` returns:
`{"name": ..., "schema": ..., "required": ...}`. -/
structure ParamSchema where
  name : String
  schema : Schema
  required : Bool

/-- `Tool._build_param_schema` (tooling.py:43-50): the schema is inferred
from `type_hints.get(name, str)` and the parameter is required iff its
default is `inspect.Parameter.empty`. -/
def build_param_schema (p : Param) : ParamSchema :=
  { name := p.name
    schema := infer_json_schema_type (p.annot.getD .str)
    required := !p.hasDefault }

/-- Python string truthiness: `""` is falsy, every other string truthy. -/
def pyTruthy (s : String) : Bool := s != ""

/-- The Python expression `a or b` where `a : Optional[str]` and
`b : str`: `a` when it is a truthy (non-empty) string, else `b`. -/
def pyOrStr (a : Option String) (b : String) : String :=
  match a with
  | some s => if pyTruthy s then s else b
  | none => b

/-- The Python expression `a or b` where both sides are `Optional[str]`
(`Tool.__init__`'s `description or inspect.getdoc(func)`): the result is
`None` when both are falsy. -/
def pyOrOpt (a : Option String) (b : Option String) : Option String :=
  match a with
  | some s => if pyTruthy s then some s else b
  | none => b

/-- The `Tool` object's state after `__init__`: resolved name, resolved
description (`None` possible), and the parameter schemas in declaration
order.  The wrapped `func` itself and `invoke` forwarding are out of the
claims' scope. -/
structure Tool where
  name : String
  description : Option String
  parameters : List ParamSchema

/-- `Tool.__init__` (tooling.py:18-41): `self.name = name or func.__name__`,
`self.description = description or inspect.getdoc(func)`, and
`self.parameters = [self._build_param_schema(k, p) for k, p in
self.signature.parameters.items()]`. -/
def Tool.make (func : PyCallable) (name : Option String)
    (description : Option String) : Tool :=
  { name := pyOrStr name func.name
    description := pyOrOpt description func.doc
    parameters := func.params.map build_param_schema }

/-- The `"parameters"` object of the exported descriptor. -/
structure ParamsObject where
  type : String
  properties : List (String × Schema)
  required : List String
  additionalProperties : Bool

/-- The `"function"` object of the exported descriptor. -/
structure FunctionObject where
  name : String
  description : Option String
  parameters : ParamsObject

/-- The descriptor `Tool.dict()` exports. -/
structure ToolDescriptor where
  type : String
  function : FunctionObject

/-- `Tool.dict` (tooling.py:95-113): `{"type": "function", "function":
{"name": ..., "description": ..., "parameters": {"type": "object",
"properties": {p["name"]: p["schema"] for p in parameters}, "required":
[p["name"] for p in parameters if p["required"]],
"additionalProperties": False}}}`. -/
def Tool.dict (t : Tool) : ToolDescriptor :=
  { type := "function"
    function :=
      { name := t.name
        description := t.description
        parameters :=
          { type := "object"
            properties := t.parameters.map (fun p => (p.name, p.schema))
            required := (t.parameters.filter (fun p => p.required)).map
              (fun p => p.name)
            additionalProperties := false } } }

/-- A Python value appearing as a field of a message: a string, `None`,
a list (the opaque `tool_calls` records), or any other object (carrying
its type's name). -/
inductive PyField where
  | str (s : String) : PyField
  | noneV : PyField
  | pylist (xs : List PyField) : PyField
  | other (typeName : String) : PyField

/-- The message model of messages.py: a tagged union of the four pydantic
variants `SystemMessage`, `UserMessage`, `ToolMessage`, `AIMessage`, each
with its declared fields (`content : Optional[str] = ""` on all of them,
`tool_call_id`/`name` required on the tool variant, `tool_calls :
Optional[List[Any]] = None` on the assistant variant). -/
inductive Message where
  | system (content : Option String) : Message
  | user (content : Option String) : Message
  | tool (content : Option String) (tool_call_id : String)
      (name : String) : Message
  | assistant (content : Option String)
      (tool_calls : Option (List PyField)) : Message

/-- Serialization of an `Optional[str]` field value. -/
def optStrField : Option String → PyField
  | some s => .str s
  | none => .noneV

/-- `BaseMessage.dict` (messages.py:17-19), i.e. `dict(self)`: every
declared field including the `role` discriminant, in pydantic field
declaration order (base-class field `content` first, then the variant's
own fields). -/
def Message.dict : Message → List (String × PyField)
  | .system c => [("content", optStrField c), ("role", .str "system")]
  | .user c => [("content", optStrField c), ("role", .str "user")]
  | .tool c id n =>
    [("content", optStrField c), ("role", .str "tool"),
     ("tool_call_id", .str id), ("name", .str n)]
  | .assistant c tc =>
    [("content", optStrField c), ("role", .str "assistant"),
     ("tool_calls", match tc with
       | some xs => .pylist xs
       | none => .noneV)]

/-- The four message variants, used to state properties of pydantic
construction uniformly. -/
inductive Variant where
  | system : Variant
  | user : Variant
  | tool : Variant
  | assistant : Variant

/-- The fields each pydantic model declares (base `content` plus the
variant's own `role` and extras), in declaration order. -/
def declaredFields : Variant → List String
  | .system => ["content", "role"]
  | .user => ["content", "role"]
  | .tool => ["content", "role", "tool_call_id", "name"]
  | .assistant => ["content", "role", "tool_calls"]

/-- Keyword-argument lookup: pydantic reads each declared field from the
keyword dictionary (Python keyword arguments have unique keys; `find?`
takes the first binding). -/
def getField (kw : List (String × PyField)) (k : String) : Option PyField :=
  (kw.find? (fun p => p.1 == k)).map (fun p => p.2)

/-- Pydantic validation of a `content : Optional[str] = ""` field: absent
means the default `""`, `None` and strings are accepted, anything else is
a `ValidationError`. -/
def validateOptStr (v : Option PyField) : Except String (Option String) :=
  match v with
  | Option.none => .ok (some "")
  | some (.str s) => .ok (some s)
  | some .noneV => .ok Option.none
  | some _ => .error "content: Input should be a valid string"

/-- Pydantic validation of a `role : Literal[r] = r` field: absent means
the default; a supplied value must be exactly the literal `r`. -/
def validateRole (r : String) (v : Option PyField) : Except String Unit :=
  match v with
  | Option.none => .ok ()
  | some (.str s) =>
    if s == r then .ok ()
    else .error ("role: Input should be " ++ r)
  | some _ => .error ("role: Input should be " ++ r)

/-- Pydantic validation of a required `str` field: absent is a
`ValidationError` (`Field required`), a supplied value must be a string. -/
def validateReqStr (field : String) (v : Option PyField) :
    Except String String :=
  match v with
  | Option.none => .error (field ++ ": Field required")
  | some (.str s) => .ok s
  | some _ => .error (field ++ ": Input should be a valid string")

/-- Pydantic validation of `tool_calls : Optional[List[Any]] = None`:
absent or `None` means `None`; a list is accepted with unvalidated
elements (`Any`); anything else is a `ValidationError`. -/
def validateToolCalls (v : Option PyField) :
    Except String (Option (List PyField)) :=
  match v with
  | Option.none => .ok Option.none
  | some .noneV => .ok Option.none
  | some (.pylist xs) => .ok (some xs)
  | some _ => .error "tool_calls: Input should be a valid list"

/-- Pydantic construction of a message variant from keyword arguments
(messages.py:12-41).  Each declared field is validated; keys that are not
declared fields are ignored (pydantic's default `extra` policy). -/
def construct (v : Variant) (kw : List (String × PyField)) :
    Except String Message :=
  match v with
  | .system => do
    let c ← validateOptStr (getField kw "content")
    let _ ← validateRole "system" (getField kw "role")
    pure (.system c)
  | .user => do
    let c ← validateOptStr (getField kw "content")
    let _ ← validateRole "user" (getField kw "role")
    pure (.user c)
  | .tool => do
    let c ← validateOptStr (getField kw "content")
    let _ ← validateRole "tool" (getField kw "role")
    let id ← validateReqStr "tool_call_id" (getField kw "tool_call_id")
    let n ← validateReqStr "name" (getField kw "name")
    pure (.tool c id n)
  | .assistant => do
    let c ← validateOptStr (getField kw "content")
    let _ ← validateRole "assistant" (getField kw "role")
    let tc ← validateToolCalls (getField kw "tool_calls")
    pure (.assistant c tc)

/-- Python `dict` assignment `m[k] = v`: overwrite in place when the key
is present (keeping its original position, as Python dicts do), otherwise
append at the end. -/
def dictInsert (m : List (String × Tool)) (k : String) (v : Tool) :
    List (String × Tool) :=
  if m.any (fun p => p.1 == k) then
    m.map (fun p => if p.1 == k then (k, v) else p)
  else m ++ [(k, v)]

/-- The `LLM` client state (llm.py:13-32): model identifier, sampling
temperature, and the name-keyed tool registry (a Python dict, embedded as
an insertion-ordered association list with unique keys).  The OpenAI
client handle and credential resolution are external collaborators, out
of the claims' scope. -/
structure LLMState where
  model : String
  temperature : Rat
  tools : List (String × Tool)

/-- `LLM.__init__` (llm.py:14-32): the registry is the dict comprehension
`{tool.name: tool for tool in (tools or [])}`. -/
def LLM.init (model : String) (temperature : Rat)
    (tools : Option (List Tool)) : LLMState :=
  { model := model
    temperature := temperature
    tools := (tools.getD []).foldl (fun m t => dictInsert m t.name t) [] }

/-- `LLM.register_tool` (llm.py:34-35): `self.tools[tool.name] = tool`. -/
def register_tool (llm : LLMState) (t : Tool) : LLMState :=
  { llm with tools := dictInsert llm.tools t.name t }

/-- The request payload `LLM._build_payload` assembles.  `tools` and
`tool_choice` are `none` exactly when the corresponding keys are absent
from the Python dict. -/
structure Payload where
  model : String
  temperature : Rat
  messages : List (List (String × PyField))
  tools : Option (List ToolDescriptor)
  tool_choice : Option String

/-- `LLM._build_payload` (llm.py:37-52): always `model`, `temperature`
and `[m.dict() for m in messages]`; when `self.tools` is truthy
(non-empty) additionally `tools = [tool.dict() for tool in
self.tools.values()]` (registry order) and `tool_choice = "auto"`. -/
def build_payload (llm : LLMState) (messages : List Message) : Payload :=
  { model := llm.model
    temperature := llm.temperature
    messages := messages.map Message.dict
    tools :=
      if llm.tools.isEmpty then none
      else some (llm.tools.map (fun kv => kv.2.dict))
    tool_choice := if llm.tools.isEmpty then none else some "auto" }

/-- An element of a Python list passed to `LLM._convert_input`: either a
`BaseMessage` instance or some other object (carrying its type name). -/
inductive PyListItem where
  | msg (m : Message) : PyListItem
  | nonMsg (typeName : String) : PyListItem

/-- `isinstance(x, BaseMessage)` for a list element. -/
def PyListItem.isMsg : PyListItem → Bool
  | .msg _ => true
  | .nonMsg _ => false

/-- The message a list element holds, when it is one. -/
def PyListItem.toMsg : PyListItem → Option Message
  | .msg m => some m
  | .nonMsg _ => none

/-- The possible shapes of the argument of `LLM._convert_input`: a `str`,
a `BaseMessage` instance, a Python list (whose elements may or may not be
messages), or any other object (carrying its type name). -/
inductive PyInput where
  | ofStr (s : String) : PyInput
  | ofMsg (m : Message) : PyInput
  | ofList (xs : List PyListItem) : PyInput
  | other (typeName : String) : PyInput

/-- `type(input)` as rendered in the `ValueError` message. -/
def PyInput.typeName : PyInput → String
  | .ofStr _ => "str"
  | .ofMsg _ => "BaseMessage"
  | .ofList _ => "list"
  | .other t => t

/-- The guard under which `_convert_input` succeeds: a string, a message,
or a list whose elements are all messages. -/
def PyInput.isValidShape : PyInput → Bool
  | .ofStr _ => true
  | .ofMsg _ => true
  | .ofList xs => xs.all PyListItem.isMsg
  | .other _ => false

/-- `LLM._convert_input` (llm.py:54-62): a `str` is wrapped as
`[UserMessage(content=input)]`, a `BaseMessage` as `[input]`, a list of
`BaseMessage`s is returned unchanged, and anything else raises
`ValueError(f"Invalid input type {type(input)}.")`. -/
def convert_input (input : PyInput) : Except String (List Message) :=
  match input with
  | .ofStr s => .ok [.user (some s)]
  | .ofMsg m => .ok [m]
  | .ofList xs =>
    if xs.all PyListItem.isMsg then .ok (xs.filterMap PyListItem.toMsg)
    else .error ("Invalid input type " ++ (PyInput.ofList xs).typeName ++ ".")
  | .other t => .error ("Invalid input type " ++ t ++ ".")

/-- A concrete callable `add(a: int, b: int)` with a docstring, for
witnesses. -/
def exCallable : PyCallable :=
  { name := "add"
    doc := some "Adds two numbers"
    params := [⟨"a", some .int, false⟩, ⟨"b", some .int, false⟩] }

/-- The tool wrapping `exCallable` with no overrides. -/
def exTool : Tool := Tool.make exCallable none none

/-- A client state with one registered tool, for witnesses. -/
def exLLM : LLMState :=
  { model := "gpt-4o-mini", temperature := 0, tools := [(exTool.name, exTool)] }

/-- A no-docstring callable named `f`, wrapped with no overrides. -/
def exToolA : Tool := Tool.make { name := "f", doc := none, params := [] } none none

/-- A second tool whose resolved name is also `f`. -/
def exToolB : Tool :=
  Tool.make { name := "f", doc := some "doc", params := [] } none none

/-- C1: for every input type shape (Literal, Optional/Union, list, dict,
any primitive, or any unrecognized object used as an annotation),
`_infer_json_schema_type` returns a schema mapping — it is a total
function whose result is always a well-formed JSON schema mapping, so it
never raises — and every unrecognized shape yields the fallback
`{"type": "string"}`. -/
theorem infer_schema_total_and_fallback :
    (∀ t : PyType, (infer_json_schema_type t).wellFormed = true) ∧
    (∀ s : String, infer_json_schema_type (.unknown s) = .prim "string") := by
  constructor
  · intro t
    induction t using infer_json_schema_type.induct with
    | case1 vs => simp [infer_json_schema_type, Schema.wellFormed]
    | case2 args t h ih =>
      rw [infer_json_schema_type, h]
      exact ih
    | case3 args h =>
      rw [infer_json_schema_type]
      split
      · rename_i t ht
        exact absurd ht (h t)
      · simp [Schema.wellFormed]
    | case4 => simp [infer_json_schema_type, Schema.wellFormed, primMapping]
    | case5 t ih => simp [infer_json_schema_type, Schema.wellFormed, ih]
    | case6 => simp [infer_json_schema_type, Schema.wellFormed, primMapping]
    | case7 k v ih => simp [infer_json_schema_type, Schema.wellFormed, ih]
    | case8 t h1 h2 h3 h4 h5 h6 =>
      cases t <;>
        simp_all [infer_json_schema_type, Schema.wellFormed, primMapping]
  · intro s
    simp [infer_json_schema_type, primMapping]

/-- C2: for every callable wrapped as a Tool, the descriptor exported by
`Tool.dict()` has a `required` list containing exactly the names of the
parameters that have no default value, in their declared order, and
`additionalProperties` is always `false`. -/
theorem descriptor_required_exact :
    ∀ (f : PyCallable) (n d : Option String),
      ((Tool.make f n d).dict.function.parameters.required
          = (f.params.filter (fun p => !p.hasDefault)).map
              (fun p => p.name)) ∧
      (Tool.make f n d).dict.function.parameters.additionalProperties
          = false := by
  intro f n d
  refine ⟨?_, rfl⟩
  show ((f.params.map build_param_schema).filter (fun p => p.required)).map
      (fun p => p.name) = _
  induction f.params with
  | nil => rfl
  | cons p ps ih =>
    simp only [List.map_cons, List.filter_cons]
    cases hp : p.hasDefault <;>
      simp [build_param_schema, hp, ih]

/-- C3: for every optional-wrapped type `T` or absence with exactly one
non-absent alternative `T`, `_infer_json_schema_type` returns the schema
of `T`; when a union has more than one non-absent alternative, it returns
the fallback `{"type": "string"}`. -/
theorem optional_unwrap :
    (∀ (args : List PyType) (t : PyType),
        args.filter (fun a => !a.isNoneType) = [t] →
        infer_json_schema_type (.union args) = infer_json_schema_type t) ∧
    (∀ args : List PyType,
        2 ≤ (args.filter (fun a => !a.isNoneType)).length →
        infer_json_schema_type (.union args) = .prim "string") := by
  constructor
  · intro args t h
    rw [infer_json_schema_type, h]
  · intro args h
    rw [infer_json_schema_type]
    split
    · rename_i t ht
      rw [ht] at h
      simp at h
    · rfl

/-- Witness for C3 at `Optional[int] = Union[int, NoneType]` (one
non-absent alternative) and `Union[int, str]` (two alternatives). -/
theorem optional_unwrap_witness :
    ([PyType.int, PyType.noneType].filter (fun a => !a.isNoneType)
        = [PyType.int]) ∧
    infer_json_schema_type (.union [.int, .noneType])
        = infer_json_schema_type .int ∧
    2 ≤ ([PyType.int, PyType.str].filter (fun a => !a.isNoneType)).length ∧
    infer_json_schema_type (.union [.int, .str]) = .prim "string" :=
  ⟨rfl, optional_unwrap.1 [.int, .noneType] .int rfl, by decide,
    optional_unwrap.2 [.int, .str] (by decide)⟩

/-- C4: for every list of messages, `_build_payload` includes the `tools`
and `tool_choice` keys if and only if the tool registry is non-empty;
when included, `tools` lists each registered tool's descriptor in
registry order and `tool_choice` is `"auto"`; when the registry is empty
both keys are absent from the payload. -/
theorem payload_tools_iff :
    ∀ (llm : LLMState) (msgs : List Message),
      ((build_payload llm msgs).tools = none ↔ llm.tools = []) ∧
      ((build_payload llm msgs).tool_choice = none ↔ llm.tools = []) ∧
      (llm.tools ≠ [] →
        (build_payload llm msgs).tools
            = some (llm.tools.map (fun kv => kv.2.dict)) ∧
        (build_payload llm msgs).tool_choice = some "auto") := by
  intro llm msgs
  cases h : llm.tools <;> simp [build_payload, h]

/-- Witness for C4 at a client holding one registered tool. -/
theorem payload_tools_iff_witness :
    exLLM.tools ≠ [] ∧
    ((build_payload exLLM []).tools
        = some (exLLM.tools.map (fun kv => kv.2.dict)) ∧
      (build_payload exLLM []).tool_choice = some "auto") :=
  ⟨by simp [exLLM], (payload_tools_iff exLLM []).2.2 (by simp [exLLM])⟩

/-- C5: `_convert_input` maps a raw text input to a one-element sequence
holding a User message with that text as content, passes a single message
through as a one-element sequence, passes a sequence of messages through
unchanged, and fails with a `ValueError` naming the offending type for
every other input shape. -/
theorem normalize_shapes :
    (∀ s : String, convert_input (.ofStr s) = .ok [.user (some s)]) ∧
    (∀ m : Message, convert_input (.ofMsg m) = .ok [m]) ∧
    (∀ ms : List Message,
        convert_input (.ofList (ms.map PyListItem.msg)) = .ok ms) ∧
    (∀ input : PyInput, input.isValidShape = false →
        convert_input input
          = .error ("Invalid input type " ++ input.typeName ++ ".")) := by
  refine ⟨fun s => rfl, fun m => rfl, ?_, ?_⟩
  · intro ms
    have hc : PyListItem.toMsg ∘ PyListItem.msg = some := rfl
    have hall : (List.map PyListItem.msg ms).all PyListItem.isMsg = true := by
      simp [List.all_eq_true, PyListItem.isMsg]
    simp only [convert_input, List.filterMap_map]
    rw [hc, List.filterMap_some, hall]
    simp
  · intro input h
    cases input <;>
      simp_all [convert_input, PyInput.isValidShape, PyInput.typeName]

/-- Witness for C5's failure branch at an `int` input. -/
theorem normalize_shapes_witness :
    (PyInput.other "int").isValidShape = false ∧
    convert_input (.other "int")
      = .error ("Invalid input type "
          ++ (PyInput.other "int").typeName ++ ".") :=
  ⟨rfl, normalize_shapes.2.2.2 (.other "int") rfl⟩

/-- Looking a declared key up in the keyword dictionary restricted to the
declared fields gives the same answer as looking it up in the full
dictionary. -/
theorem find?_filter_eq {α : Type} (l : List α) (p q : α → Bool)
    (h : ∀ x, q x = true → p x = true) :
    (l.filter p).find? q = l.find? q := by
  induction l with
  | nil => rfl
  | cons a tl ih =>
    rw [List.filter_cons]
    cases hq : q a with
    | true =>
      rw [if_pos (h a hq), List.find?_cons_of_pos _ hq,
        List.find?_cons_of_pos _ hq]
    | false =>
      have hq' : ¬ q a = true := by simp [hq]
      cases hp : p a with
      | true =>
        rw [if_pos rfl, List.find?_cons_of_neg _ hq',
          List.find?_cons_of_neg _ hq']
        exact ih
      | false =>
        rw [if_neg (by simp), List.find?_cons_of_neg _ hq']
        exact ih

theorem getField_filter (kw : List (String × PyField)) (fields : List String)
    (k : String) (hk : fields.contains k = true) :
    getField (kw.filter (fun p => fields.contains p.1)) k = getField kw k := by
  unfold getField
  rw [find?_filter_eq kw (fun p => fields.contains p.1)
    (fun p => p.1 == k)
    (fun x hx => by
      have hxk : x.1 = k := by simpa using hx
      show fields.contains x.1 = true
      rw [hxk]
      exact hk)]

/-- C6 counterexample: constructing a User message with the undeclared
field `foo` is accepted (pydantic's default policy ignores extra fields),
contradicting the claim that any undeclared field is rejected. -/
theorem extra_field_accepted_counterexample :
    construct .user [("content", .str "hi"), ("foo", .str "bar")]
      = .ok (.user (some "hi")) := rfl

/-- C6 amended: constructing a Message variant with fields that are not
declared for that variant silently ignores them — validation gives the
same result as with the undeclared fields removed, so only the declared
fields for each variant are taken into account (inconsistent `role`
values and missing required declared fields are still rejected). -/
theorem construct_ignores_undeclared :
    ∀ (v : Variant) (kw : List (String × PyField)),
      construct v kw
        = construct v (kw.filter (fun p => (declaredFields v).contains p.1)) := by
  intro v kw
  cases v
  case system =>
    simp only [construct, declaredFields]
    rw [getField_filter kw ["content", "role"] "content" rfl,
      getField_filter kw ["content", "role"] "role" rfl]
  case user =>
    simp only [construct, declaredFields]
    rw [getField_filter kw ["content", "role"] "content" rfl,
      getField_filter kw ["content", "role"] "role" rfl]
  case tool =>
    simp only [construct, declaredFields]
    rw [getField_filter kw ["content", "role", "tool_call_id", "name"]
        "content" rfl,
      getField_filter kw ["content", "role", "tool_call_id", "name"]
        "role" rfl,
      getField_filter kw ["content", "role", "tool_call_id", "name"]
        "tool_call_id" rfl,
      getField_filter kw ["content", "role", "tool_call_id", "name"]
        "name" rfl]
  case assistant =>
    simp only [construct, declaredFields]
    rw [getField_filter kw ["content", "role", "tool_calls"] "content" rfl,
      getField_filter kw ["content", "role", "tool_calls"] "role" rfl,
      getField_filter kw ["content", "role", "tool_calls"] "tool_calls" rfl]

/-- C7 counterexample: for a callable with no docstring and no explicit
description, the tool's description is the absent value `None`, not the
empty text claimed. -/
theorem description_none_counterexample :
    (Tool.make { name := "f", doc := none, params := [] } none
        none).description = none ∧
    (Tool.make { name := "f", doc := none, params := [] } none
        none).description ≠ some "" := by
  constructor
  · rfl
  · intro hcontra
    simp [Tool.make, pyOrOpt] at hcontra

/-- C7 amended: for every callable wrapped with no explicit description,
the tool's description equals the callable's documentation string; when
the callable also has no documentation string, the description is `None`
(absent, serialized as null), not empty text. -/
theorem description_defaults_to_doc :
    ∀ f : PyCallable, (Tool.make f none none).description = f.doc :=
  fun _ => rfl

/-- C8: constructing a tool-result message without `tool_call_id` fails
with a `ValidationError`; constructing it with `tool_call_id="call_1"`
and `name="search"` succeeds, and its `dict()` output includes both of
those fields as well as the `role` discriminant. -/
theorem tool_message_required_fields :
    construct .tool [("name", .str "search")]
        = .error "tool_call_id: Field required" ∧
    construct .tool [("tool_call_id", .str "call_1"), ("name", .str "search")]
        = .ok (.tool (some "") "call_1" "search") ∧
    Message.dict (.tool (some "") "call_1" "search")
        = [("content", .str ""), ("role", .str "tool"),
           ("tool_call_id", .str "call_1"), ("name", .str "search")] :=
  ⟨rfl, rfl, rfl⟩

/-- C9: for every pair of tools with the same name, registering the
second after the first replaces the first in the registry and the
registry size stays 1; `register_tool` performs no validation of
duplicate names beyond overwriting (it is a total overwrite-by-name
update). -/
theorem register_overwrites_same_name :
    ∀ (model : String) (temp : Rat) (t1 t2 : Tool), t1.name = t2.name →
      (register_tool (register_tool (LLM.init model temp none) t1)
          t2).tools = [(t2.name, t2)] ∧
      (register_tool (register_tool (LLM.init model temp none) t1)
          t2).tools.length = 1 := by
  intro model temp t1 t2 h
  have h1 : (register_tool (LLM.init model temp none) t1).tools
      = [(t1.name, t1)] := by
    simp [LLM.init, register_tool, dictInsert]
  have h2 : (register_tool (register_tool (LLM.init model temp none) t1)
      t2).tools = [(t2.name, t2)] := by
    show dictInsert (register_tool (LLM.init model temp none) t1).tools
        t2.name t2 = _
    rw [h1, h]
    simp [dictInsert]
  exact ⟨h2, by rw [h2]; rfl⟩

/-- Witness for C9: two tools whose resolved name is `f`. -/
theorem register_overwrites_same_name_witness :
    exToolA.name = exToolB.name ∧
    (register_tool (register_tool (LLM.init "gpt-4o-mini" 0 none) exToolA)
        exToolB).tools = [(exToolB.name, exToolB)] ∧
    (register_tool (register_tool (LLM.init "gpt-4o-mini" 0 none) exToolA)
        exToolB).tools.length = 1 :=
  ⟨rfl,
    (register_overwrites_same_name "gpt-4o-mini" 0 exToolA exToolB rfl).1,
    (register_overwrites_same_name "gpt-4o-mini" 0 exToolA exToolB rfl).2⟩

/-- C10: constructing a Tool with an empty-string `name` or empty-string
`description` override behaves as if no override were given (Python `or`
treats `""` as falsy): the name falls back to the callable's declared
name, the description falls back to the callable's documentation string,
and the whole construction coincides with the override-free one. -/
theorem empty_override_falls_back :
    ∀ f : PyCallable,
      (Tool.make f (some "") (some "")).name = f.name ∧
      (Tool.make f (some "") (some "")).description = f.doc ∧
      Tool.make f (some "") (some "") = Tool.make f none none :=
  fun _ => ⟨rfl, rfl, rfl⟩
